import Mathlib

/-!
Shallow embedding of the GTN-Production-Order Flask application
(`routes.py`) and verification of its specification claims.

The persistence layer is modelled as in-memory lists of records; each
request handler becomes a pure function from its inputs (session, form
fields, query parameters, database) to a `HandlerResult` holding the HTTP
response, the post-request database, the post-request session, and the
flash messages emitted during the request.
-/

namespace GTN

/-- A `users` row.  The column set follows the spec's data model
(`models.py` is not part of the provided sources): id, unique username,
password hash, display name, free-text department, admin flag, soft-delete
flag. -/
structure User where
  id : Nat
  username : String
  password_hash : String
  name : String
  department : String
  is_admin : Bool
  is_active : Bool
deriving Repr, DecidableEq

/-- A `work_centers` row. -/
structure WorkCenter where
  id : Nat
  name : String
  is_active : Bool
deriving Repr, DecidableEq

/-- A `departments` row. -/
structure Department where
  id : Nat
  name : String
  is_active : Bool
deriving Repr, DecidableEq

/-- A `production_orders` row.  `workcenter_id` is an `Int` because
`save_orders` stores the result of Python's `int(...)` there;
`created_at` is an abstract timestamp (larger = later). -/
structure ProductionOrder where
  id : Nat
  production_order : String
  workcenter_id : Int
  quantity : Int
  order_type : String
  user_id : Nat
  created_at : Nat
deriving Repr, DecidableEq

/-- The Flask session cookie: the three keys the application stores.
A key absent from the session dict is `none`. -/
structure Session where
  user_id : Option Nat
  username : Option String
  is_admin : Option Bool
deriving Repr, DecidableEq

/-- The relational store: one list per table. -/
structure DB where
  users : List User
  workcenters : List WorkCenter
  departments : List Department
  orders : List ProductionOrder
deriving Repr, DecidableEq

/-- A spreadsheet cell value: `openpyxl` receives strings and ints. -/
inductive CellValue where
  | str (v : String)
  | int (v : Int)
deriving Repr, DecidableEq

/-- `str(cell.value)` as used by the column-width pass. -/
def cellStr : CellValue → String
  | .str v => v
  | .int v => toString v

/-- The one worksheet built by `export_excel`: title, header styling,
header row, data rows, and the computed column widths. -/
structure Worksheet where
  title : String
  headerBold : Bool
  headerFillColor : String
  header : List String
  rows : List (List CellValue)
  widths : List Nat
deriving Repr, DecidableEq

/-- A handler's HTTP response.  `render` carries the order list passed to
the template (empty for templates that receive no order list). -/
inductive Response where
  | redirect (target : String)
  | render (template : String) (orders : List ProductionOrder)
  | notFound
  | excel (ws : Worksheet)
deriving Repr, DecidableEq

/-- The outcome of one request: response, database after the request,
session after the request, and the flash messages (text, category)
emitted during the request. -/
structure HandlerResult where
  response : Response
  db : DB
  session : Session
  flashes : List (String × String)
deriving Repr, DecidableEq

/-- Leading/trailing-whitespace removal on a character list (Python's
`str.strip()` with no argument). -/
def pyStripList (l : List Char) : List Char :=
  ((l.dropWhile Char.isWhitespace).reverse.dropWhile Char.isWhitespace).reverse

/-- Python's `str.strip()`. -/
def pyStrip (s : String) : String :=
  String.mk (pyStripList s.data)

/-- Numeric value of a digit string (already checked to be all digits). -/
def digitsVal (l : List Char) : Nat :=
  l.foldl (fun n c => n * 10 + (c.toNat - 48)) 0

/-- Python's `int(s)`: strip whitespace, optional sign, then a non-empty
run of digits; anything else raises `ValueError`.  The error carries the
exception text used by the `str(e)` flash. -/
def pyInt (s : String) : Except String Int :=
  let t := pyStripList s.data
  let sign : Int := match t with
    | '-' :: _ => -1
    | _ => 1
  let ds : List Char := match t with
    | '+' :: rest => rest
    | '-' :: rest => rest
    | l => l
  if !ds.isEmpty && ds.all Char.isDigit then
    .ok (sign * (digitsVal ds : Int))
  else
    .error ("invalid literal for int() with base 10: " ++ s)

/-- The loop body of `save_orders`: walk the submitted `orders` list,
building the `ProductionOrder` rows added to the pending transaction.
`nid` models the autoincrement id assigned at insertion; `now` the
insertion timestamp.  An entry is skipped when it is empty, does not
split on `|` into exactly three fields, or has an empty workcenter id;
otherwise `int` parsing may raise, which aborts the whole batch. -/
def processOrders (uid : Nat) (order_type : String) (now : Nat) :
    Nat → List String → Except String (List ProductionOrder)
  | _, [] => .ok []
  | nid, order_data :: rest =>
    if order_data = "" then processOrders uid order_type now nid rest
    else
      let parts := order_data.splitOn "|"
      if parts.length = 3 then
        let wcid := parts.getD 0 ""
        let po := parts.getD 1 ""
        let qty := parts.getD 2 ""
        if wcid = "" then processOrders uid order_type now nid rest
        else do
          let w ← pyInt wcid
          let q ← if qty = "" then Except.ok 0 else pyInt qty
          let new_order : ProductionOrder :=
            { id := nid
              production_order := if po ≠ "" then pyStrip po else ""
              workcenter_id := w
              quantity := q
              order_type := order_type
              user_id := uid
              created_at := now }
          let tail ← processOrders uid order_type now (nid + 1) rest
          .ok (new_order :: tail)
      else processOrders uid order_type now nid rest

/-- `POST /save_orders`: session-guarded batch insert.  The whole batch
is one transaction: on success every built row is appended and a success
flash emitted; on any exception the database is left untouched and a
single error flash echoes the exception text. -/
def save_orders (s : Session) (order_type : String) (orders_data : List String)
    (nextOrderId now : Nat) (db : DB) : HandlerResult :=
  match s.user_id with
  | none => { response := .redirect "login", db := db, session := s, flashes := [] }
  | some uid =>
    match processOrders uid order_type now nextOrderId orders_data with
    | .ok new_orders =>
        { response := .redirect "menu"
          db := { db with orders := db.orders ++ new_orders }
          session := s
          flashes := [(order_type ++ " orders saved successfully!", "success")] }
    | .error e =>
        { response := .redirect "menu"
          db := db
          session := s
          flashes := [("Error saving orders: " ++ e, "error")] }

/-- Does the pattern occur at the head of the text? -/
def leadMatch : List Char → List Char → Bool
  | [], _ => true
  | _ :: _, [] => false
  | a :: as, b :: bs => a == b && leadMatch as bs

/-- Does the pattern occur anywhere in the text? -/
def hasSub (pat : List Char) : List Char → Bool
  | [] => pat.isEmpty
  | b :: bs => leadMatch pat (b :: bs) || hasSub pat bs

/-- The SQL `column.contains(search)` filter (`LIKE`-style substring
match) used by the report queries. -/
def strContains (s pat : String) : Bool :=
  hasSub pat.data s.data

/-- Membership test for the inner joins `ProductionOrder ⋈ WorkCenter ⋈
User`: the order row survives the join exactly when both foreign keys
resolve. -/
def joinOK (db : DB) (o : ProductionOrder) : Bool :=
  db.workcenters.any (fun w => (w.id : Int) == o.workcenter_id) &&
  db.users.any (fun u => u.id == o.user_id)

/-- `ORDER BY created_at ASC`. -/
def createdAsc : ProductionOrder → ProductionOrder → Prop :=
  fun a b => a.created_at ≤ b.created_at

/-- `ORDER BY created_at DESC`. -/
def createdDesc : ProductionOrder → ProductionOrder → Prop :=
  fun a b => b.created_at ≤ a.created_at

/-- `ORDER BY production_order ASC`. -/
def poAsc : ProductionOrder → ProductionOrder → Prop :=
  fun a b => a.production_order ≤ b.production_order

/-- `ORDER BY production_order DESC`. -/
def poDesc : ProductionOrder → ProductionOrder → Prop :=
  fun a b => b.production_order ≤ a.production_order

/-- `ORDER BY quantity ASC`. -/
def qtyAsc : ProductionOrder → ProductionOrder → Prop :=
  fun a b => a.quantity ≤ b.quantity

/-- `ORDER BY quantity DESC`. -/
def qtyDesc : ProductionOrder → ProductionOrder → Prop :=
  fun a b => b.quantity ≤ a.quantity

instance : DecidableRel createdAsc :=
  fun a b => inferInstanceAs (Decidable (a.created_at ≤ b.created_at))

instance : DecidableRel createdDesc :=
  fun a b => inferInstanceAs (Decidable (b.created_at ≤ a.created_at))

instance : DecidableRel poAsc :=
  fun a b => inferInstanceAs (Decidable (a.production_order ≤ b.production_order))

instance : DecidableRel poDesc :=
  fun a b => inferInstanceAs (Decidable (b.production_order ≤ a.production_order))

instance : DecidableRel qtyAsc :=
  fun a b => inferInstanceAs (Decidable (a.quantity ≤ b.quantity))

instance : DecidableRel qtyDesc :=
  fun a b => inferInstanceAs (Decidable (b.quantity ≤ a.quantity))

instance : IsTotal ProductionOrder createdAsc := ⟨fun a b => Nat.le_total a.created_at b.created_at⟩

instance : IsTrans ProductionOrder createdAsc := ⟨fun _ _ _ => Nat.le_trans⟩

instance : IsTotal ProductionOrder createdDesc := ⟨fun a b => Nat.le_total b.created_at a.created_at⟩

instance : IsTrans ProductionOrder createdDesc := ⟨fun _ _ _ h1 h2 => Nat.le_trans h2 h1⟩

instance : IsTotal ProductionOrder qtyAsc := ⟨fun a b => Int.le_total a.quantity b.quantity⟩

instance : IsTrans ProductionOrder qtyAsc := ⟨fun _ _ _ => Int.le_trans⟩

instance : IsTotal ProductionOrder qtyDesc := ⟨fun a b => Int.le_total b.quantity a.quantity⟩

instance : IsTrans ProductionOrder qtyDesc := ⟨fun _ _ _ h1 h2 => Int.le_trans h2 h1⟩

/-- The joined, optionally search-filtered order query before any
ordering clause: rows whose foreign keys resolve, restricted to those
whose code contains the search term when one was given. -/
def searchFilter (db : DB) (search : String) : List ProductionOrder :=
  let base := db.orders.filter (fun o => joinOK db o)
  if search ≠ "" then base.filter (fun o => strContains o.production_order search) else base

/-- The full report query of `reports` / `admin_reports`: search filter
followed by the ordering clause selected by the `sort` / `order`
parameters.  A `sort` value outside the three known columns adds no
ordering clause at all. -/
def reportsQuery (db : DB) (search sort_by ord : String) : List ProductionOrder :=
  let filtered := searchFilter db search
  if sort_by = "created_at" then
    if ord = "asc" then List.insertionSort createdAsc filtered
    else List.insertionSort createdDesc filtered
  else if sort_by = "production_order" then
    if ord = "asc" then List.insertionSort poAsc filtered
    else List.insertionSort poDesc filtered
  else if sort_by = "quantity" then
    if ord = "asc" then List.insertionSort qtyAsc filtered
    else List.insertionSort qtyDesc filtered
  else filtered

/-- Primary-key lookup on the users table (`User.query.get`). -/
def findUser (db : DB) (uid : Nat) : Option User :=
  db.users.find? (fun u => u.id == uid)

/-- Primary-key lookup on the work-centers table. -/
def findWorkCenter (db : DB) (wid : Nat) : Option WorkCenter :=
  db.workcenters.find? (fun w => w.id == wid)

/-- Primary-key lookup on the departments table. -/
def findDepartment (db : DB) (did : Nat) : Option Department :=
  db.departments.find? (fun d => d.id == did)

/-- The admin-route guard condition: negation of
`'user_id' not in session or not session.get('is_admin')`.  A missing
`is_admin` key is falsy, as is a stored `False`. -/
def adminOK (s : Session) : Bool :=
  s.user_id.isSome && s.is_admin.getD false

/-- `POST /login`.  `check` is the password verification of
`User.check_password`.  Modelled from the spec: `models.py` is not among
the provided sources, and the spec only says the submitted password is
verified against the stored hash, so verification stays an abstract
parameter `(password, stored hash) → Bool`.  The handler looks up the
first active user with the submitted username; on successful
verification it records id, username and admin flag in the session and
redirects by role, otherwise it flashes an error and redirects back to
the login page without touching the session. -/
def do_login (check : String → String → Bool) (username password : String)
    (s : Session) (db : DB) : HandlerResult :=
  match (db.users.filter (fun u => u.username == username && u.is_active)).head? with
  | some user =>
    if check password user.password_hash then
      { response := .redirect (if user.is_admin then "admin_dashboard" else "menu")
        db := db
        session := { user_id := some user.id, username := some user.username,
                     is_admin := some user.is_admin }
        flashes := [] }
    else
      { response := .redirect "login", db := db, session := s,
        flashes := [("Invalid username or password", "error")] }
  | none =>
      { response := .redirect "login", db := db, session := s,
        flashes := [("Invalid username or password", "error")] }

/-- `GET /menu`: session-guarded menu page. -/
def menu (s : Session) (db : DB) : HandlerResult :=
  match s.user_id with
  | none => { response := .redirect "login", db := db, session := s, flashes := [] }
  | some _ => { response := .render "menu.html" [], db := db, session := s, flashes := [] }

/-- `GET /in_orders`: session-guarded entry form (the active work-center
list it renders is not order data, so the render payload is empty). -/
def in_orders (s : Session) (db : DB) : HandlerResult :=
  match s.user_id with
  | none => { response := .redirect "login", db := db, session := s, flashes := [] }
  | some _ => { response := .render "in_orders.html" [], db := db, session := s, flashes := [] }

/-- `GET /out_orders`: session-guarded entry form. -/
def out_orders (s : Session) (db : DB) : HandlerResult :=
  match s.user_id with
  | none => { response := .redirect "login", db := db, session := s, flashes := [] }
  | some _ => { response := .render "out_orders.html" [], db := db, session := s, flashes := [] }

/-- `GET /reports`: session-guarded, searchable, sortable listing.  The
three query parameters are `none` when absent; absent `search` defaults
to the empty string, absent `sort` to `created_at`, absent `order` to
`desc`. -/
def reports (s : Session) (searchArg sortArg orderArg : Option String)
    (db : DB) : HandlerResult :=
  match s.user_id with
  | none => { response := .redirect "login", db := db, session := s, flashes := [] }
  | some _ =>
    { response := .render "reports.html"
        (reportsQuery db (searchArg.getD "") (sortArg.getD "created_at") (orderArg.getD "desc"))
      db := db
      session := s
      flashes := [] }

/-- `GET /admin/dashboard`: admin-guarded (with an access-denied flash on
failure); renders statistics plus the ten most recent orders. -/
def admin_dashboard (s : Session) (db : DB) : HandlerResult :=
  if !adminOK s then
    { response := .redirect "login", db := db, session := s,
      flashes := [("Access denied. Admin privileges required.", "error")] }
  else
    { response := .render "admin_dashboard.html"
        ((List.insertionSort createdDesc (db.orders.filter (fun o => joinOK db o))).take 10)
      db := db
      session := s
      flashes := [] }

/-- `GET /admin/users`: admin-guarded (with flash) user list. -/
def admin_users (s : Session) (db : DB) : HandlerResult :=
  if !adminOK s then
    { response := .redirect "login", db := db, session := s,
      flashes := [("Access denied. Admin privileges required.", "error")] }
  else
    { response := .render "admin_users.html" [], db := db, session := s, flashes := [] }

/-- `POST /admin/create_user`: admin-guarded (no flash on failure).
`hashFn` is `set_password`'s hash — modelled from the spec, as
`models.py` is absent; a newly created user is active (soft-delete flag
defaults to true). -/
def create_user (s : Session) (username name department password : String)
    (admin_checked : Bool) (hashFn : String → String) (nid : Nat) (db : DB) : HandlerResult :=
  if !adminOK s then
    { response := .redirect "login", db := db, session := s, flashes := [] }
  else
    match (db.users.filter (fun u => u.username == username)).head? with
    | some _ =>
      { response := .redirect "admin_users", db := db, session := s,
        flashes := [("Username already exists", "error")] }
    | none =>
      { response := .redirect "admin_users"
        db := { db with users := db.users ++
          [{ id := nid, username := username, name := name, department := department,
             password_hash := hashFn password, is_admin := admin_checked, is_active := true }] }
        session := s
        flashes := [("User created successfully", "success")] }

/-- `POST /admin/edit_user/<id>`: admin-guarded (no flash on failure);
404 when the id does not exist; otherwise overwrites the mutable fields
from the form, re-hashing the password only when the submitted password
field is non-empty. -/
def edit_user (s : Session) (target : Nat) (username name department password : String)
    (admin_checked active_checked : Bool) (hashFn : String → String)
    (db : DB) : HandlerResult :=
  if !adminOK s then
    { response := .redirect "login", db := db, session := s, flashes := [] }
  else
    match findUser db target with
    | none => { response := .notFound, db := db, session := s, flashes := [] }
    | some user =>
      let updated : User :=
        { user with
          username := username
          name := name
          department := department
          password_hash := if password ≠ "" then hashFn password else user.password_hash
          is_admin := admin_checked
          is_active := active_checked }
      { response := .redirect "admin_users"
        db := { db with users := db.users.map (fun u => if u.id == user.id then updated else u) }
        session := s
        flashes := [("User updated successfully", "success")] }

/-- `POST /admin/delete_user/<id>`: admin-guarded (no flash on failure);
404 when the id does not exist; refuses to touch the session's own
account; otherwise soft-deletes by clearing `is_active`.  After the
guard `session['user_id']` is present, so `getD 0` reads exactly it. -/
def delete_user (s : Session) (target : Nat) (db : DB) : HandlerResult :=
  if !adminOK s then
    { response := .redirect "login", db := db, session := s, flashes := [] }
  else
    match findUser db target with
    | none => { response := .notFound, db := db, session := s, flashes := [] }
    | some user =>
      if user.id == s.user_id.getD 0 then
        { response := .redirect "admin_users", db := db, session := s,
          flashes := [("Cannot delete your own account", "error")] }
      else
        { response := .redirect "admin_users"
          db := { db with users := (db.users.map
            (fun u => if u.id == user.id then { u with is_active := false } else u)) }
          session := s
          flashes := [("User deleted successfully", "success")] }

/-- `GET /admin/reports`: the same query logic as `reports`, behind the
admin guard (with flash), rendering the admin template. -/
def admin_reports (s : Session) (searchArg sortArg orderArg : Option String)
    (db : DB) : HandlerResult :=
  if !adminOK s then
    { response := .redirect "login", db := db, session := s,
      flashes := [("Access denied. Admin privileges required.", "error")] }
  else
    { response := .render "admin_reports.html"
        (reportsQuery db (searchArg.getD "") (sortArg.getD "created_at") (orderArg.getD "desc"))
      db := db
      session := s
      flashes := [] }

/-- The work-center join target of one order row. -/
def resolveWC (db : DB) (o : ProductionOrder) : Option WorkCenter :=
  db.workcenters.find? (fun w => (w.id : Int) == o.workcenter_id)

/-- The user join target of one order row. -/
def resolveUser (db : DB) (o : ProductionOrder) : Option User :=
  db.users.find? (fun u => u.id == o.user_id)

/-- One spreadsheet data row: order code, work-center name, quantity,
type, the creator's display name (falling back to the username), the
creator's department (falling back to a dash), and the formatted
timestamp.  The joined query only yields rows whose keys resolve, so the
empty-row branch is never taken there. -/
def excelRow (db : DB) (fmt : Nat → String) (o : ProductionOrder) : List CellValue :=
  match resolveWC db o, resolveUser db o with
  | some w, some u =>
    [.str o.production_order, .str w.name, .int o.quantity, .str o.order_type,
     .str (if u.name ≠ "" then u.name else u.username),
     .str (if u.department ≠ "" then u.department else "-"),
     .str (fmt o.created_at)]
  | _, _ => []

/-- The seven fixed export columns. -/
def excelHeaders : List String :=
  ["Production Order", "Work Center", "Quantity", "Type", "Name", "Department", "Date & Time"]

/-- The stringified cells of column `j`: the header cell followed by the
data cells, as seen by the width-adjustment loop. -/
def colCells (header : List String) (rows : List (List CellValue)) (j : Nat) : List String :=
  header.getD j "" :: rows.map (fun r => cellStr (r.getD j (.str "")))

/-- `max_length` of the width-adjustment loop. -/
def maxLen (l : List String) : Nat :=
  l.foldl (fun m t => max m t.length) 0

/-- `GET /admin/export_excel`: admin-guarded (no flash on failure).
Builds the one-sheet workbook: styled header row, one data row per
joined order sorted by `created_at` descending with no search filter,
and column widths `min(longest stringified cell + 2, 50)`.  `fmt` is the
`strftime` timestamp rendering. -/
def export_excel (s : Session) (fmt : Nat → String) (db : DB) : HandlerResult :=
  if !adminOK s then
    { response := .redirect "login", db := db, session := s, flashes := [] }
  else
    let sorted := List.insertionSort createdDesc (db.orders.filter (fun o => joinOK db o))
    let rows := sorted.map (excelRow db fmt)
    { response := .excel
        { title := "Production Orders Report"
          headerBold := true
          headerFillColor := "366092"
          header := excelHeaders
          rows := rows
          widths := (List.range excelHeaders.length).map
            (fun j => min (maxLen (colCells excelHeaders rows j) + 2) 50) }
      db := db
      session := s
      flashes := [] }

/-- `GET /admin/master_data`: admin-guarded (with flash) master-data page. -/
def master_data (s : Session) (db : DB) : HandlerResult :=
  if !adminOK s then
    { response := .redirect "login", db := db, session := s,
      flashes := [("Access denied. Admin privileges required.", "error")] }
  else
    { response := .render "master_data.html" [], db := db, session := s, flashes := [] }

/-- `POST /admin/create_workcenter`: admin-guarded (no flash on failure);
a new work center is active by default. -/
def create_workcenter (s : Session) (name : String) (nid : Nat) (db : DB) : HandlerResult :=
  if !adminOK s then
    { response := .redirect "login", db := db, session := s, flashes := [] }
  else
    { response := .redirect "master_data"
      db := { db with workcenters := db.workcenters ++ [{ id := nid, name := name, is_active := true }] }
      session := s
      flashes := [("Work center created successfully", "success")] }

/-- `POST /admin/edit_workcenter/<id>`: admin-guarded; 404 when absent;
overwrites name and active flag from the form. -/
def edit_workcenter (s : Session) (target : Nat) (name : String) (active_checked : Bool)
    (db : DB) : HandlerResult :=
  if !adminOK s then
    { response := .redirect "login", db := db, session := s, flashes := [] }
  else
    match findWorkCenter db target with
    | none => { response := .notFound, db := db, session := s, flashes := [] }
    | some w =>
      { response := .redirect "master_data"
        db := { db with workcenters := (db.workcenters.map
          (fun v => if v.id == w.id then { v with name := name, is_active := active_checked } else v)) }
        session := s
        flashes := [("Work center updated successfully", "success")] }

/-- `POST /admin/delete_workcenter/<id>`: admin-guarded; 404 when absent;
soft delete. -/
def delete_workcenter (s : Session) (target : Nat) (db : DB) : HandlerResult :=
  if !adminOK s then
    { response := .redirect "login", db := db, session := s, flashes := [] }
  else
    match findWorkCenter db target with
    | none => { response := .notFound, db := db, session := s, flashes := [] }
    | some w =>
      { response := .redirect "master_data"
        db := { db with workcenters := (db.workcenters.map
          (fun v => if v.id == w.id then { v with is_active := false } else v)) }
        session := s
        flashes := [("Work center deleted successfully", "success")] }

/-- `POST /admin/create_department`: admin-guarded; a new department is
active by default. -/
def create_department (s : Session) (name : String) (nid : Nat) (db : DB) : HandlerResult :=
  if !adminOK s then
    { response := .redirect "login", db := db, session := s, flashes := [] }
  else
    { response := .redirect "master_data"
      db := { db with departments := db.departments ++ [{ id := nid, name := name, is_active := true }] }
      session := s
      flashes := [("Department created successfully", "success")] }

/-- `POST /admin/edit_department/<id>`: admin-guarded; 404 when absent;
overwrites name and active flag from the form. -/
def edit_department (s : Session) (target : Nat) (name : String) (active_checked : Bool)
    (db : DB) : HandlerResult :=
  if !adminOK s then
    { response := .redirect "login", db := db, session := s, flashes := [] }
  else
    match findDepartment db target with
    | none => { response := .notFound, db := db, session := s, flashes := [] }
    | some d =>
      { response := .redirect "master_data"
        db := { db with departments := (db.departments.map
          (fun v => if v.id == d.id then { v with name := name, is_active := active_checked } else v)) }
        session := s
        flashes := [("Department updated successfully", "success")] }

/-- `POST /admin/delete_department/<id>`: admin-guarded; 404 when absent;
soft delete. -/
def delete_department (s : Session) (target : Nat) (db : DB) : HandlerResult :=
  if !adminOK s then
    { response := .redirect "login", db := db, session := s, flashes := [] }
  else
    match findDepartment db target with
    | none => { response := .notFound, db := db, session := s, flashes := [] }
    | some d =>
      { response := .redirect "master_data"
        db := { db with departments := (db.departments.map
          (fun v => if v.id == d.id then { v with is_active := false } else v)) }
        session := s
        flashes := [("Department deleted successfully", "success")] }

/-- The order list a handler passed to its template (empty for any other
response kind). -/
def ordersOf (r : HandlerResult) : List ProductionOrder :=
  match r.response with
  | .render _ l => l
  | _ => []

/-- Referential integrity of the store: every order's foreign keys
resolve, i.e. no row is dropped by the report/export inner joins.  The
spec lists this as an invariant enforced by the persistence layer. -/
def WF (db : DB) : Prop :=
  ∀ o ∈ db.orders, joinOK db o = true

instance (db : DB) : Decidable (WF db) :=
  inferInstanceAs (Decidable (∀ o ∈ db.orders, joinOK db o = true))

/-- Every session-guarded route of the application: all routes except the
login page, the login POST and `logout` (which has no guard). -/
inductive Route where
  | menu | in_orders | out_orders | save_orders | reports
  | admin_dashboard | admin_users | create_user | edit_user | delete_user
  | admin_reports | export_excel | master_data
  | create_workcenter | edit_workcenter | delete_workcenter
  | create_department | edit_department | delete_department
deriving Repr, DecidableEq

/-- A uniform bundle of request data: every form field, path parameter
and query parameter any guarded route reads, plus the id/timestamp
sources and the abstract hash and timestamp-format functions. -/
structure Request where
  order_type : String
  orders_data : List String
  username : String
  name : String
  department : String
  password : String
  admin_checked : Bool
  active_checked : Bool
  target : Nat
  searchArg : Option String
  sortArg : Option String
  orderArg : Option String
  nextId : Nat
  now : Nat
  hashFn : String → String
  fmt : Nat → String

/-- Route table: feed the bundled request to the route's handler. -/
def dispatch (r : Route) (req : Request) (s : Session) (db : DB) : HandlerResult :=
  match r with
  | .menu => menu s db
  | .in_orders => in_orders s db
  | .out_orders => out_orders s db
  | .save_orders => save_orders s req.order_type req.orders_data req.nextId req.now db
  | .reports => reports s req.searchArg req.sortArg req.orderArg db
  | .admin_dashboard => admin_dashboard s db
  | .admin_users => admin_users s db
  | .create_user =>
      create_user s req.username req.name req.department req.password req.admin_checked
        req.hashFn req.nextId db
  | .edit_user =>
      edit_user s req.target req.username req.name req.department req.password
        req.admin_checked req.active_checked req.hashFn db
  | .delete_user => delete_user s req.target db
  | .admin_reports => admin_reports s req.searchArg req.sortArg req.orderArg db
  | .export_excel => export_excel s req.fmt db
  | .master_data => master_data s db
  | .create_workcenter => create_workcenter s req.name req.nextId db
  | .edit_workcenter => edit_workcenter s req.target req.name req.active_checked db
  | .delete_workcenter => delete_workcenter s req.target db
  | .create_department => create_department s req.name req.nextId db
  | .edit_department => edit_department s req.target req.name req.active_checked db
  | .delete_department => delete_department s req.target db

/-- Which routes are admin-only (double guard) rather than merely
session-guarded. -/
def isAdminRoute : Route → Bool
  | .menu | .in_orders | .out_orders | .save_orders | .reports => false
  | _ => true

/-- The guard-failure condition of a route: a missing `user_id` key, or —
for an admin route — a falsy `is_admin` session value. -/
def guardFails (r : Route) (s : Session) : Bool :=
  if isAdminRoute r then !adminOK s else s.user_id.isNone

/-- The four admin view routes flash an access-denied message when their
guard fails; every other route redirects silently. -/
def denyFlash : Route → List (String × String)
  | .admin_dashboard | .admin_users | .admin_reports | .master_data =>
      [("Access denied. Admin privileges required.", "error")]
  | _ => []

/-- A sample admin user. -/
def alice : User :=
  { id := 7, username := "alice", password_hash := "h1", name := "Alice",
    department := "Prod", is_admin := true, is_active := true }

/-- A sample regular user. -/
def bob : User :=
  { id := 8, username := "bob", password_hash := "h2", name := "",
    department := "", is_admin := false, is_active := true }

/-- A sample database used to instantiate theorems with hypotheses at
concrete inputs. -/
def sampleDB : DB :=
  { users := [alice, bob]
    workcenters := [{ id := 1, name := "WC-A", is_active := true },
                    { id := 2, name := "WC-B", is_active := true }]
    departments := [{ id := 1, name := "Prod", is_active := true }]
    orders := [] }

/-- A sample logged-in non-admin session. -/
def sampleSession : Session :=
  { user_id := some 7, username := some "alice", is_admin := some false }

/-- A session with no logged-in user. -/
def emptySession : Session :=
  { user_id := none, username := none, is_admin := none }

/-- A sample request bundle for concrete instantiations. -/
def sampleRequest : Request :=
  { order_type := "IN"
    orders_data := ["1|PO100|50"]
    username := "carol"
    name := "Carol"
    department := "QA"
    password := "pw"
    admin_checked := false
    active_checked := true
    target := 8
    searchArg := none
    sortArg := none
    orderArg := none
    nextId := 9
    now := 5
    hashFn := fun p => "hash:" ++ p
    fmt := fun t => toString t }

/-- A sample logged-in admin session. -/
def adminSession : Session :=
  { user_id := some 7, username := some "alice", is_admin := some true }

/-- Skipping lemma for the `save_orders` loop: a non-empty entry that does
not split on the pipe character into exactly three fields contributes
nothing — the loop neither inserts a row for it nor raises. -/
theorem processOrders_skip_malformed (uid : Nat) (order_type : String) (now : Nat)
    (e : String) (he : e ≠ "") (hlen : (e.splitOn "|").length ≠ 3) :
    ∀ (nid : Nat) (l1 l2 : List String),
      processOrders uid order_type now nid (l1 ++ e :: l2) =
      processOrders uid order_type now nid (l1 ++ l2) := by
  intro nid l1
  induction l1 generalizing nid with
  | nil =>
    intro l2
    simp only [List.nil_append]
    conv_lhs => rw [processOrders]
    simp [he, hlen]
  | cons a l1 ih =>
    intro l2
    simp only [List.cons_append]
    conv_lhs => rw [processOrders]
    conv_rhs => rw [processOrders]
    simp only [ih]

/-- C1: the spec's example batch inserted by `save_orders`. -/
theorem save_orders_example_batch (s : Session) (uid : Nat) (order_type : String)
    (nid now : Nat) (db : DB) (h : s.user_id = some uid) :
    save_orders s order_type ["1|PO100|50", "|PO200|10", "2|PO300|"] nid now db =
      { response := .redirect "menu"
        db := { db with orders := db.orders ++
          [{ id := nid, production_order := "PO100", workcenter_id := 1, quantity := 50,
             order_type := order_type, user_id := uid, created_at := now },
           { id := nid + 1, production_order := "PO300", workcenter_id := 2, quantity := 0,
             order_type := order_type, user_id := uid, created_at := now }] }
        session := s
        flashes := [(order_type ++ " orders saved successfully!", "success")] } := by
  have hp : processOrders uid order_type now nid ["1|PO100|50", "|PO200|10", "2|PO300|"] =
      .ok [{ id := nid, production_order := "PO100", workcenter_id := 1, quantity := 50,
             order_type := order_type, user_id := uid, created_at := now },
           { id := nid + 1, production_order := "PO300", workcenter_id := 2, quantity := 0,
             order_type := order_type, user_id := uid, created_at := now }] := by
    with_unfolding_all rfl
  unfold save_orders
  rw [h]
  dsimp only
  rw [hp]

/-- Witness for C1 at a concrete session, batch and database. -/
theorem save_orders_example_batch_witness :
    save_orders sampleSession "IN" ["1|PO100|50", "|PO200|10", "2|PO300|"] 1 5 sampleDB =
      { response := .redirect "menu"
        db := { sampleDB with orders := sampleDB.orders ++
          [{ id := 1, production_order := "PO100", workcenter_id := 1, quantity := 50,
             order_type := "IN", user_id := 7, created_at := 5 },
           { id := 1 + 1, production_order := "PO300", workcenter_id := 2, quantity := 0,
             order_type := "IN", user_id := 7, created_at := 5 }] }
        session := sampleSession
        flashes := [("IN" ++ " orders saved successfully!", "success")] } :=
  save_orders_example_batch sampleSession 7 "IN" 1 5 sampleDB rfl

/-- C2: `save_orders` is all-or-nothing.  Either the loop builds every row
and the handler commits them all with one success flash, or the loop
raises and the handler leaves the database untouched, emitting a single
error flash that carries the exception text. -/
theorem save_orders_all_or_nothing (s : Session) (uid : Nat) (order_type : String)
    (orders_data : List String) (nid now : Nat) (db : DB) (h : s.user_id = some uid) :
    (∃ l, processOrders uid order_type now nid orders_data = .ok l ∧
      save_orders s order_type orders_data nid now db =
        { response := .redirect "menu"
          db := { db with orders := db.orders ++ l }
          session := s
          flashes := [(order_type ++ " orders saved successfully!", "success")] }) ∨
    (∃ e, processOrders uid order_type now nid orders_data = .error e ∧
      save_orders s order_type orders_data nid now db =
        { response := .redirect "menu"
          db := db
          session := s
          flashes := [("Error saving orders: " ++ e, "error")] }) := by
  cases hp : processOrders uid order_type now nid orders_data with
  | ok l =>
    left
    exact ⟨l, rfl, by unfold save_orders; rw [h]; dsimp only; rw [hp]⟩
  | error e =>
    right
    exact ⟨e, rfl, by unfold save_orders; rw [h]; dsimp only; rw [hp]⟩

/-- Witness for C2 at a concrete session, batch and database. -/
theorem save_orders_all_or_nothing_witness :
    (∃ l, processOrders 7 "IN" 5 1 ["1|PO100|50"] = .ok l ∧
      save_orders sampleSession "IN" ["1|PO100|50"] 1 5 sampleDB =
        { response := .redirect "menu"
          db := { sampleDB with orders := sampleDB.orders ++ l }
          session := sampleSession
          flashes := [("IN" ++ " orders saved successfully!", "success")] }) ∨
    (∃ e, processOrders 7 "IN" 5 1 ["1|PO100|50"] = .error e ∧
      save_orders sampleSession "IN" ["1|PO100|50"] 1 5 sampleDB =
        { response := .redirect "menu"
          db := sampleDB
          session := sampleSession
          flashes := [("Error saving orders: " ++ e, "error")] }) :=
  save_orders_all_or_nothing sampleSession 7 "IN" ["1|PO100|50"] 1 5 sampleDB rfl

/-- C9: a non-empty batch entry that does not split on the pipe character
into exactly three fields is silently skipped — `save_orders` behaves
exactly as if the entry were not in the batch, so no row is inserted for
it, no error is raised or flashed because of it, and the remaining
entries are processed unchanged. -/
theorem save_orders_silently_skips_malformed (s : Session) (order_type : String)
    (e : String) (he : e ≠ "") (hlen : (e.splitOn "|").length ≠ 3)
    (l1 l2 : List String) (nid now : Nat) (db : DB) :
    save_orders s order_type (l1 ++ e :: l2) nid now db =
    save_orders s order_type (l1 ++ l2) nid now db := by
  unfold save_orders
  cases s.user_id with
  | none => rfl
  | some uid =>
    dsimp only
    rw [processOrders_skip_malformed uid order_type now e he hlen nid l1 l2]

/-- Witness for C9: the malformed entry between two well-formed ones. -/
theorem save_orders_silently_skips_malformed_witness :
    "1|PO100" ≠ "" ∧ ("1|PO100".splitOn "|").length ≠ 3 ∧
    save_orders sampleSession "IN" (["1|PO7|5"] ++ "1|PO100" :: ["2|PO8|"]) 1 5 sampleDB =
    save_orders sampleSession "IN" (["1|PO7|5"] ++ ["2|PO8|"]) 1 5 sampleDB :=
  ⟨by decide, by with_unfolding_all decide,
    save_orders_silently_skips_malformed sampleSession "IN" "1|PO100" (by decide)
      (by with_unfolding_all decide) ["1|PO7|5"] ["2|PO8|"] 1 5 sampleDB⟩

/-- C3 (counterexample to the claim as stated): with no logged-in user,
the `menu` handler redirects to the login page but flashes nothing — the
redirect is not accompanied by a flash message. -/
theorem menu_guard_failure_flashes_nothing :
    dispatch Route.menu sampleRequest emptySession sampleDB =
      { response := .redirect "login", db := sampleDB, session := emptySession,
        flashes := [] } := rfl

/-- C3 (amended): for every session-guarded route, a guard failure
(missing `user_id`, or a falsy admin flag on an admin-only route) leaves
the database and session untouched and redirects to the login page
without raising; the four admin view routes (`admin_dashboard`,
`admin_users`, `admin_reports`, `master_data`) additionally flash an
access-denied error, and every other route flashes nothing. -/
theorem guard_failure_redirects_login (r : Route) (req : Request) (s : Session)
    (db : DB) (h : guardFails r s = true) :
    dispatch r req s db =
      { response := .redirect "login", db := db, session := s, flashes := denyFlash r } := by
  cases r <;>
    simp_all [dispatch, guardFails, isAdminRoute, denyFlash, Option.isNone_iff_eq_none,
      menu, in_orders, out_orders, save_orders, reports, admin_dashboard, admin_users,
      create_user, edit_user, delete_user, admin_reports, export_excel, master_data,
      create_workcenter, edit_workcenter, delete_workcenter, create_department,
      edit_department, delete_department]

/-- Witness for the amended C3 theorem: the admin user list requested
with a logged-in but non-admin session. -/
theorem guard_failure_redirects_login_witness :
    guardFails Route.admin_users sampleSession = true ∧
    dispatch Route.admin_users sampleRequest sampleSession sampleDB =
      { response := .redirect "login", db := sampleDB, session := sampleSession,
        flashes := denyFlash Route.admin_users } :=
  ⟨by decide, guard_failure_redirects_login Route.admin_users sampleRequest sampleSession
    sampleDB (by decide)⟩

/-- C4: the login POST.  When the first active user under the submitted
username exists and the password verifies, the session records id,
username and admin flag and the response redirects by role; when the
password fails to verify, or no active user carries the username (which
covers both a missing and an inactive user), the response is a redirect
back to login with an error flash and the session is left untouched. -/
theorem do_login_spec (check : String → String → Bool) (username password : String)
    (s : Session) (db : DB) :
    (∀ user, (db.users.filter (fun u => u.username == username && u.is_active)).head? = some user →
      check password user.password_hash = true →
      do_login check username password s db =
        { response := .redirect (if user.is_admin then "admin_dashboard" else "menu")
          db := db
          session := { user_id := some user.id, username := some user.username,
                       is_admin := some user.is_admin }
          flashes := [] }) ∧
    (∀ user, (db.users.filter (fun u => u.username == username && u.is_active)).head? = some user →
      check password user.password_hash = false →
      do_login check username password s db =
        { response := .redirect "login", db := db, session := s,
          flashes := [("Invalid username or password", "error")] }) ∧
    ((db.users.filter (fun u => u.username == username && u.is_active)).head? = none →
      do_login check username password s db =
        { response := .redirect "login", db := db, session := s,
          flashes := [("Invalid username or password", "error")] }) := by
  refine ⟨?_, ?_, ?_⟩
  · intro user hu hc
    unfold do_login
    rw [hu]
    dsimp only
    rw [hc]
    simp
  · intro user hu hc
    unfold do_login
    rw [hu]
    dsimp only
    rw [hc]
    simp
  · intro hn
    unfold do_login
    rw [hn]

/-- Witness for C4: alice (an active admin) logs in with the password
that verifies against her stored hash. -/
theorem do_login_spec_witness :
    (sampleDB.users.filter (fun u => u.username == "alice" && u.is_active)).head? = some alice ∧
    do_login (fun p h => p == h) "alice" "h1" emptySession sampleDB =
      { response := .redirect (if alice.is_admin then "admin_dashboard" else "menu")
        db := sampleDB
        session := { user_id := some alice.id, username := some alice.username,
                     is_admin := some alice.is_admin }
        flashes := [] } :=
  ⟨by decide,
    (do_login_spec (fun p h => p == h) "alice" "h1" emptySession sampleDB).1 alice
      (by decide) (by decide)⟩

/-- C5: user deletion under an admin session.  Deleting the session's own
user id changes nothing in the database and flashes an error; deleting
any other existing user rewrites only that user's `is_active` flag to
false — every other field and every other row is carried over by the
identity — and the row count is preserved (soft delete, no row removal). -/
theorem delete_user_spec (s : Session) (uid target : Nat) (db : DB)
    (hu : s.user_id = some uid) (ha : s.is_admin = some true) :
    (∀ user, findUser db target = some user → user.id = uid →
      delete_user s target db =
        { response := .redirect "admin_users", db := db, session := s,
          flashes := [("Cannot delete your own account", "error")] }) ∧
    (∀ user, findUser db target = some user → user.id ≠ uid →
      delete_user s target db =
        { response := .redirect "admin_users"
          db := { db with users := (db.users.map
            (fun u => if u.id == user.id then { u with is_active := false } else u)) }
          session := s
          flashes := [("User deleted successfully", "success")] } ∧
      (db.users.map (fun u => if u.id == user.id then { u with is_active := false } else u)).length
        = db.users.length) := by
  have hg : adminOK s = true := by
    simp [adminOK, hu, ha]
  refine ⟨?_, ?_⟩
  · intro user hf heq
    unfold delete_user
    rw [hg, hf]
    dsimp only
    rw [hu]
    simp [heq]
  · intro user hf hne
    refine ⟨?_, by simp⟩
    unfold delete_user
    rw [hg, hf]
    dsimp only
    rw [hu]
    simp [hne]

/-- Witness for C5: the admin session of alice (id 7) soft-deletes bob
(id 8). -/
theorem delete_user_spec_witness :
    findUser sampleDB 8 = some bob ∧ bob.id ≠ 7 ∧
    (delete_user adminSession 8 sampleDB =
      { response := .redirect "admin_users"
        db := { sampleDB with users := (sampleDB.users.map
          (fun u => if u.id == bob.id then { u with is_active := false } else u)) }
        session := adminSession
        flashes := [("User deleted successfully", "success")] } ∧
    (sampleDB.users.map (fun u => if u.id == bob.id then { u with is_active := false } else u)).length
      = sampleDB.users.length) :=
  ⟨by decide, by decide,
    (delete_user_spec adminSession 7 8 sampleDB rfl rfl).2 bob (by decide) (by decide)⟩

/-- C8: editing a user as admin.  With a blank submitted password the
stored hash is carried over unchanged while username, name, department,
admin flag and active flag are overwritten from the form; with a target
id that does not exist the handler responds not-found and the database
is untouched (for any submitted password). -/
theorem edit_user_spec (s : Session) (target : Nat)
    (username name department : String) (admin_checked active_checked : Bool)
    (hashFn : String → String) (db : DB) (hg : adminOK s = true) :
    (∀ user, findUser db target = some user →
      edit_user s target username name department "" admin_checked active_checked hashFn db =
        { response := .redirect "admin_users"
          db := { db with users := (db.users.map (fun u => if u.id == user.id then
              { user with username := username, name := name, department := department,
                          is_admin := admin_checked, is_active := active_checked } else u)) }
          session := s
          flashes := [("User updated successfully", "success")] }) ∧
    (∀ password, findUser db target = none →
      edit_user s target username name department password admin_checked active_checked hashFn db =
        { response := .notFound, db := db, session := s, flashes := [] }) := by
  refine ⟨?_, ?_⟩
  · intro user hf
    unfold edit_user
    rw [hg, hf]
    simp
  · intro password hf
    unfold edit_user
    rw [hg, hf]
    simp

/-- Witness for C8: bob is edited with a blank password; his stored hash
survives while the other fields are overwritten. -/
theorem edit_user_spec_witness :
    findUser sampleDB 8 = some bob ∧
    edit_user adminSession 8 "bobby" "Bobby" "QA" "" true true (fun p => "hash:" ++ p) sampleDB =
      { response := .redirect "admin_users"
        db := { sampleDB with users := (sampleDB.users.map (fun u => if u.id == bob.id then
            { bob with username := "bobby", name := "Bobby", department := "QA",
                       is_admin := true, is_active := true } else u)) }
        session := adminSession
        flashes := [("User updated successfully", "success")] } :=
  ⟨by decide,
    (edit_user_spec adminSession 8 "bobby" "Bobby" "QA" true true (fun p => "hash:" ++ p)
      sampleDB rfl).1 bob (by decide)⟩

/-- Three sample order rows whose foreign keys resolve in `reportDB`. -/
def po1 : ProductionOrder :=
  { id := 1, production_order := "PO100", workcenter_id := 1, quantity := 50,
    order_type := "IN", user_id := 7, created_at := 10 }

/-- Second sample order. -/
def po2 : ProductionOrder :=
  { id := 2, production_order := "PO200", workcenter_id := 2, quantity := 5,
    order_type := "OUT", user_id := 8, created_at := 20 }

/-- Third sample order. -/
def po3 : ProductionOrder :=
  { id := 3, production_order := "XPO10", workcenter_id := 1, quantity := 7,
    order_type := "IN", user_id := 7, created_at := 15 }

/-- A referentially intact database with data in every table, for
instantiating the report and export theorems. -/
def reportDB : DB :=
  { users := [alice, bob]
    workcenters := [{ id := 1, name := "WC-A", is_active := true },
                    { id := 2, name := "WC-B", is_active := true }]
    departments := [{ id := 1, name := "Prod", is_active := true }]
    orders := [po1, po2, po3] }

/-- With a logged-in session, `reports` renders exactly the report query
for the defaulted parameters. -/
theorem ordersOf_reports (s : Session) (searchArg sortArg orderArg : Option String)
    (db : DB) (uid : Nat) (hu : s.user_id = some uid) :
    ordersOf (reports s searchArg sortArg orderArg db) =
      reportsQuery db (searchArg.getD "") (sortArg.getD "created_at") (orderArg.getD "desc") := by
  unfold reports
  rw [hu]
  rfl

/-- With a logged-in admin session, `admin_reports` renders exactly the
report query for the defaulted parameters. -/
theorem ordersOf_admin_reports (s : Session) (searchArg sortArg orderArg : Option String)
    (db : DB) (hg : adminOK s = true) :
    ordersOf (admin_reports s searchArg sortArg orderArg db) =
      reportsQuery db (searchArg.getD "") (sortArg.getD "created_at") (orderArg.getD "desc") := by
  unfold admin_reports
  rw [hg]
  rfl

/-- Membership in the report query is membership in the search-filtered
join, whatever ordering clause was selected. -/
theorem mem_reportsQuery (db : DB) (search sb od : String) (o : ProductionOrder) :
    o ∈ reportsQuery db search sb od ↔ o ∈ searchFilter db search := by
  unfold reportsQuery
  split_ifs <;> simp [List.mem_insertionSort]

/-- Under referential integrity the join drops nothing, so a non-empty
search term reduces the query's row set to the substring filter over the
whole order table. -/
theorem searchFilter_eq_filter (db : DB) (search : String) (hwf : WF db)
    (hs : search ≠ "") :
    searchFilter db search =
      db.orders.filter (fun o => strContains o.production_order search) := by
  unfold searchFilter
  rw [List.filter_eq_self.mpr (by simpa using hwf)]
  simp [hs]

/-- C6: the report listing under a valid session, over a referentially
intact store.  With `sort=quantity&order=asc` the rendered list is
non-decreasing in quantity whatever the search parameter; with a
non-empty search term the rendered rows are exactly the orders whose
code contains the term, whatever the sort parameters; with `sort` and
`order` absent the rendered list is sorted by `created_at` descending. -/
theorem reports_query_spec (s : Session) (uid : Nat) (db : DB)
    (hu : s.user_id = some uid) (hwf : WF db) :
    (∀ searchArg, (ordersOf (reports s searchArg (some "quantity") (some "asc") db)).Pairwise qtyAsc) ∧
    (∀ search, search ≠ "" → ∀ sortArg orderArg o,
        o ∈ ordersOf (reports s (some search) sortArg orderArg db) ↔
          strContains o.production_order search = true ∧ o ∈ db.orders) ∧
    (∀ searchArg, (ordersOf (reports s searchArg none none db)).Pairwise createdDesc) := by
  refine ⟨?_, ?_, ?_⟩
  · intro searchArg
    rw [ordersOf_reports s searchArg (some "quantity") (some "asc") db uid hu]
    rw [show (some "quantity").getD "created_at" = "quantity" from rfl,
        show (some "asc").getD "desc" = "asc" from rfl]
    have hq : reportsQuery db (searchArg.getD "") "quantity" "asc" =
        List.insertionSort qtyAsc (searchFilter db (searchArg.getD "")) := by
      unfold reportsQuery
      simp
    rw [hq]
    exact List.sorted_insertionSort qtyAsc _
  · intro search hs sortArg orderArg o
    rw [ordersOf_reports s (some search) sortArg orderArg db uid hu]
    rw [show (some search).getD "" = search from rfl]
    rw [mem_reportsQuery, searchFilter_eq_filter db search hwf hs]
    simp [List.mem_filter, and_comm]
  · intro searchArg
    rw [ordersOf_reports s searchArg none none db uid hu]
    have hq : reportsQuery db (searchArg.getD "") "created_at" "desc" =
        List.insertionSort createdDesc (searchFilter db (searchArg.getD "")) := by
      unfold reportsQuery
      simp
    rw [show (none : Option String).getD "created_at" = "created_at" from rfl,
        show (none : Option String).getD "desc" = "desc" from rfl, hq]
    exact List.sorted_insertionSort createdDesc _

/-- Witness for C6: searching for the term inside the first sample
order's code. -/
theorem reports_query_spec_witness :
    po1 ∈ ordersOf (reports sampleSession (some "PO1") none none reportDB) ↔
      strContains po1.production_order "PO1" = true ∧ po1 ∈ reportDB.orders :=
  (reports_query_spec sampleSession 7 reportDB rfl (by decide)).2.1 "PO1" (by decide)
    none none po1

/-- C10: in both `reports` and `admin_reports`, a `sort` query parameter
outside {created_at, production_order, quantity} matches no ordering
branch, so the rendered list is exactly the search-filtered join in
store order — no ordering clause at all; the `created_at`-descending
default ordering is what both handlers apply when the `sort` parameter
is absent. -/
theorem invalid_sort_no_ordering (s : Session) (uid : Nat) (db : DB)
    (hu : s.user_id = some uid) (ha : s.is_admin = some true) (bad : String)
    (h1 : bad ≠ "created_at") (h2 : bad ≠ "production_order") (h3 : bad ≠ "quantity") :
    (∀ searchArg orderArg,
      ordersOf (reports s searchArg (some bad) orderArg db) =
        searchFilter db (searchArg.getD "")) ∧
    (∀ searchArg orderArg,
      ordersOf (admin_reports s searchArg (some bad) orderArg db) =
        searchFilter db (searchArg.getD "")) ∧
    (∀ searchArg, (ordersOf (reports s searchArg none none db)).Pairwise createdDesc) ∧
    (∀ searchArg, (ordersOf (admin_reports s searchArg none none db)).Pairwise createdDesc) := by
  have hg : adminOK s = true := by
    simp [adminOK, hu, ha]
  have hbad : ∀ searchArg : Option String,
      reportsQuery db (searchArg.getD "") bad "" = searchFilter db (searchArg.getD "") ∧
      ∀ od, reportsQuery db (searchArg.getD "") bad od = searchFilter db (searchArg.getD "") := by
    intro searchArg
    constructor
    · unfold reportsQuery
      simp [h1, h2, h3]
    · intro od
      unfold reportsQuery
      simp [h1, h2, h3]
  have hdesc : ∀ searchArg : Option String,
      reportsQuery db (searchArg.getD "") "created_at" "desc" =
        List.insertionSort createdDesc (searchFilter db (searchArg.getD "")) := by
    intro searchArg
    unfold reportsQuery
    simp
  refine ⟨?_, ?_, ?_, ?_⟩
  · intro searchArg orderArg
    rw [ordersOf_reports s searchArg (some bad) orderArg db uid hu,
        show (some bad).getD "created_at" = bad from rfl]
    exact (hbad searchArg).2 _
  · intro searchArg orderArg
    rw [ordersOf_admin_reports s searchArg (some bad) orderArg db hg,
        show (some bad).getD "created_at" = bad from rfl]
    exact (hbad searchArg).2 _
  · intro searchArg
    rw [ordersOf_reports s searchArg none none db uid hu,
        show (none : Option String).getD "created_at" = "created_at" from rfl,
        show (none : Option String).getD "desc" = "desc" from rfl, hdesc searchArg]
    exact List.sorted_insertionSort createdDesc _
  · intro searchArg
    rw [ordersOf_admin_reports s searchArg none none db hg,
        show (none : Option String).getD "created_at" = "created_at" from rfl,
        show (none : Option String).getD "desc" = "desc" from rfl, hdesc searchArg]
    exact List.sorted_insertionSort createdDesc _

/-- Witness for C10: a `sort=foo` report request renders the store-order
filtered list. -/
theorem invalid_sort_no_ordering_witness :
    ordersOf (reports adminSession (some "PO") (some "foo") (some "asc") reportDB) =
      searchFilter reportDB ((some "PO").getD "") :=
  (invalid_sort_no_ordering adminSession 7 reportDB rfl rfl "foo" (by decide) (by decide)
    (by decide)).1 (some "PO") (some "asc")

/-- C7: the spreadsheet export under an admin session over a
referentially intact store.  The single worksheet carries the styled
seven-column header; its data rows are a permutation of the whole order
table (no search filter), listed in `created_at`-descending order and
rendered through `excelRow`; and every column width is the length of the
longest stringified cell of that column (header included) plus two,
capped at 50. -/
theorem export_excel_spec (s : Session) (fmt : Nat → String) (db : DB)
    (hg : adminOK s = true) (hwf : WF db) :
    ∃ ws : Worksheet,
      export_excel s fmt db =
        { response := .excel ws, db := db, session := s, flashes := [] } ∧
      ws.title = "Production Orders Report" ∧
      ws.headerBold = true ∧
      ws.headerFillColor = "366092" ∧
      ws.header = ["Production Order", "Work Center", "Quantity", "Type", "Name",
                   "Department", "Date & Time"] ∧
      (∃ l : List ProductionOrder, l.Perm db.orders ∧ l.Pairwise createdDesc ∧
        ws.rows = l.map (excelRow db fmt)) ∧
      ws.widths = (List.range 7).map
        (fun j => min (maxLen (colCells ws.header ws.rows j) + 2) 50) := by
  have hfe : db.orders.filter (fun o => joinOK db o) = db.orders :=
    List.filter_eq_self.mpr (by simpa using hwf)
  refine ⟨{ title := "Production Orders Report"
            headerBold := true
            headerFillColor := "366092"
            header := excelHeaders
            rows := (List.insertionSort createdDesc
              (db.orders.filter (fun o => joinOK db o))).map (excelRow db fmt)
            widths := (List.range excelHeaders.length).map
              (fun j => min (maxLen (colCells excelHeaders
                ((List.insertionSort createdDesc
                  (db.orders.filter (fun o => joinOK db o))).map (excelRow db fmt)) j) + 2) 50) },
    ?_, rfl, rfl, rfl, rfl, ?_, ?_⟩
  · unfold export_excel
    rw [hg]
    rfl
  · refine ⟨List.insertionSort createdDesc (db.orders.filter (fun o => joinOK db o)),
      ?_, List.sorted_insertionSort createdDesc _, rfl⟩
    exact (List.perm_insertionSort createdDesc _).trans (by rw [hfe])
  · rfl

/-- Witness for C7 at the sample admin session and intact store. -/
theorem export_excel_spec_witness :
    ∃ ws : Worksheet,
      export_excel adminSession (fun t => toString t) reportDB =
        { response := .excel ws, db := reportDB, session := adminSession, flashes := [] } ∧
      ws.title = "Production Orders Report" ∧
      ws.headerBold = true ∧
      ws.headerFillColor = "366092" ∧
      ws.header = ["Production Order", "Work Center", "Quantity", "Type", "Name",
                   "Department", "Date & Time"] ∧
      (∃ l : List ProductionOrder, l.Perm reportDB.orders ∧ l.Pairwise createdDesc ∧
        ws.rows = l.map (excelRow reportDB (fun t => toString t))) ∧
      ws.widths = (List.range 7).map
        (fun j => min (maxLen (colCells ws.header ws.rows j) + 2) 50) :=
  export_excel_spec adminSession (fun t => toString t) reportDB rfl (by decide)

end GTN
